import Mathlib

/-!
Verification development for the EV energy-trade station signer (`src/server.js`).

The server exposes a single operation, POST /sign-stop.  Its handler
1. destructures the request body into the six claim fields,
2. rejects with 400 "Bad address in payload" unless `ethers.utils.isAddress`
   accepts `user`, `station` and `contractAddr`,
3. rejects with 400 "Station address mismatch" unless `station` equals the
   wallet's address case-insensitively,
4. signs the claim with EIP-712 typed data (domain "EVEnergy"/"1" with the
   claim's chainId and contractAddr) and answers 200 with signature and signer,
5. catches any error and answers 500 with the error message.

The embedding below models the ethers v5 library calls structurally:
address parsing (`getAddress` / `isAddress`) is implemented in full, with the
keccak256 hash used for EIP-55 checksum casing abstracted as a nibble oracle;
EIP-712 value encoding is implemented with the same success/failure behaviour
as the ethers encoders, including the resolveNames step that precedes hashing
inside `_signTypedData` (a provider-less wallet throws when any address value
is not a 0x-prefixed 40-hex-digit string, because such values are treated as
ENS names); the secp256k1 signature itself is modeled symbolically
by the data that determines its verification behaviour: the signer's address
and the structured digest (ethers v5 signing is deterministic, RFC 6979, so a
signature is a function of the key and the digest).
-/

namespace EVEnergy

/-! ### Character helpers mirroring the character classes of the ethers v5 regexes -/

def isHexChar (c : Char) : Bool :=
  c.isDigit || ('a' ≤ c && c ≤ 'f') || ('A' ≤ c && c ≤ 'F')

def isUpperHexLetter (c : Char) : Bool := 'A' ≤ c && c ≤ 'F'

def isLowerHexLetter (c : Char) : Bool := 'a' ≤ c && c ≤ 'f'

def isAlphanumChar (c : Char) : Bool :=
  c.isDigit || ('a' ≤ c && c ≤ 'z') || ('A' ≤ c && c ≤ 'Z')

/-- JS `String.prototype.toLowerCase` restricted to ASCII, over the string's
character list (all strings this service lowercases are ASCII addresses). -/
def toLowerStr (s : String) : String := String.mk (s.data.map Char.toLower)

/-- Strip a leading "0x" from a character list, if present. -/
def strip0x : List Char → Option (List Char)
  | '0' :: 'x' :: rest => some rest
  | _ => none

/-! ### ethers v5 `getAddress` / `isAddress`

`getChecksumAddress` lowercases the 40 hex characters, hashes their ascii
bytes with keccak256 and uppercases character `i` when nibble `i` of the hash
is at least 8.  The hash is abstracted as `kn : List Char → Nat → Nat`, the
nibble oracle: `kn lower i` is nibble `i` of keccak256 of the ascii bytes of
`lower`. -/

def getChecksumAddressList (kn : List Char → Nat → Nat) (a : List Char) :
    Except String (List Char) :=
  match strip0x a with
  | some body =>
    if body.length == 40 && body.all isHexChar then
      let lower := body.map Char.toLower
      let chars := lower.enum.map fun p => if 8 ≤ kn lower p.1 then p.2.toUpper else p.2
      Except.ok ('0' :: 'x' :: chars)
    else Except.error "invalid address"
  | none => Except.error "invalid address"

/-- IBAN digit expansion used by the ICAP checksum: digits map to themselves,
uppercase letters A..Z map to the two decimal digits of 10..35. -/
def ibanDigits (c : Char) : List Nat :=
  if c.isDigit then [c.toNat - 48] else [(c.toNat - 55) / 10, (c.toNat - 55) % 10]

/-- ethers v5 `ibanChecksum`: rearrange, expand letters to digits, take the
decimal value mod 97 and return the two digits of `98 - value % 97`. -/
def ibanChecksum (cs : List Char) : List Char :=
  let up := cs.map Char.toUpper
  let rearranged := up.drop 4 ++ up.take 2 ++ ['0', '0']
  let value := rearranged.foldl (fun a c => (ibanDigits c).foldl (fun a2 d => a2 * 10 + d) a) 0
  let ck := 98 - value % 97
  [Nat.digitChar (ck / 10), Nat.digitChar (ck % 10)]

/-- Base-36 digit value, case-insensitive, as in BN's base-36 parsing. -/
def base36Digit (c : Char) : Nat :=
  if c.isDigit then c.toNat - 48
  else if 'a' ≤ c && c ≤ 'z' then c.toNat - 87
  else c.toNat - 55

/-- ethers v5 `_base36To16` followed by left-padding with '0' to width 40. -/
def icapToHex (rest : List Char) : List Char :=
  let v := rest.foldl (fun a c => a * 36 + base36Digit c) 0
  let hexChars := Nat.toDigits 16 v
  List.replicate (40 - hexChars.length) '0' ++ hexChars

/-- ethers v5 `getAddress` on a character list.  A 40-hex-digit string
(with optional "0x") is accepted unless it is mixed-case with a wrong EIP-55
checksum; an ICAP "XE.." string is converted after its IBAN checksum is
verified; anything else is an invalid address. -/
def getAddressList (kn : List Char → Nat → Nat) (cs : List Char) :
    Except String (List Char) :=
  let body := match strip0x cs with | some r => r | none => cs
  if body.length == 40 && body.all isHexChar then
    let a := '0' :: 'x' :: body
    match getChecksumAddressList kn a with
    | Except.ok result =>
      if (a.any isUpperHexLetter && a.any isLowerHexLetter) && result ≠ a then
        Except.error "bad address checksum"
      else Except.ok result
    | Except.error e => Except.error e
  else
    match cs with
    | 'X' :: 'E' :: d1 :: d2 :: rest =>
      if d1.isDigit && d2.isDigit && rest.all isAlphanumChar &&
          (rest.length == 30 || rest.length == 31) then
        if [d1, d2] ≠ ibanChecksum cs then Except.error "bad icap checksum"
        else getChecksumAddressList kn ('0' :: 'x' :: icapToHex rest)
      else Except.error "invalid address"
    | _ => Except.error "invalid address"

def getAddress (kn : List Char → Nat → Nat) (s : String) : Except String String :=
  (getAddressList kn s.toList).map fun cs => String.mk cs

/-- ethers v5 `isAddress`: true exactly when `getAddress` does not throw. -/
def isAddress (kn : List Char → Nat → Nat) (s : String) : Bool :=
  match getAddressList kn s.toList with
  | Except.ok _ => true
  | Except.error _ => false

/-! ### EIP-712 value encoding (the fallible part of `_signTypedData`) -/

/-- The hex tail of a "0x..." hex string, as checked by ethers `isHexString`. -/
def hexTail? (s : String) : Option (List Char) :=
  match strip0x s.toList with
  | some rest => if rest.all isHexChar then some rest else none
  | none => none

/-- ethers `arrayify` followed by the bytes32 width check of the typed-data
encoder: the value must be a "0x" hex string of exactly 32 bytes. -/
def encodeBytes32 (s : String) : Except String String :=
  match hexTail? s with
  | none => Except.error "invalid arrayify value"
  | some rest =>
    if rest.length % 2 == 1 then Except.error "hex data is odd-length"
    else if rest.length / 2 ≠ 32 then Except.error "invalid length for bytes32"
    else Except.ok (String.mk ('0' :: 'x' :: rest.map Char.toLower))

def hexDigitVal (c : Char) : Nat :=
  if c.isDigit then c.toNat - 48
  else if isLowerHexLetter c then c.toNat - 87
  else c.toNat - 55

/-- The magnitude accepted by `BigNumber.from` on a string: a nonempty "0x"
hex string, or a nonempty decimal digit string. -/
def parseMagnitude? (cs : List Char) : Option Nat :=
  match strip0x cs with
  | some rest =>
    if !rest.isEmpty && rest.all isHexChar then
      some (rest.foldl (fun a c => a * 16 + hexDigitVal c) 0)
    else none
  | none =>
    if !cs.isEmpty && cs.all Char.isDigit then
      some (cs.foldl (fun a c => a * 10 + (c.toNat - 48)) 0)
    else none

/-- ethers v5 `BigNumber.from` on a string: an optional leading '-' followed
by a hex or decimal magnitude; anything else is an invalid BigNumber string. -/
def bigNumberFromStr (s : String) : Except String Int :=
  if s.toList.head? = some '-' then
    match parseMagnitude? s.toList.tail with
    | some n => Except.ok (-(n : Int))
    | none => Except.error "invalid BigNumber string"
  else
    match parseMagnitude? s.toList with
    | some n => Except.ok (n : Int)
    | none => Except.error "invalid BigNumber string"

def uint256Bound : Nat := 2 ^ 256

/-- The uint256 bounds check of the typed-data encoder. -/
def encodeUint256 (v : Int) : Except String Nat :=
  if v < 0 ∨ (uint256Bound : Int) ≤ v then Except.error "value out-of-bounds for uint256"
  else Except.ok v.toNat

/-! ### The domain, the type schema and the claim (`src/server.js` lines 16-34) -/

structure Domain where
  name : String
  version : String
  chainId : Int
  verifyingContract : String
deriving DecidableEq

/-- `function domain(chainId, contractAddr)` from the source. -/
def domain (chainId : Int) (contractAddr : String) : Domain :=
  { name := "EVEnergy", version := "1", chainId := chainId, verifyingContract := contractAddr }

/-- `const types = { SessionStop: [...] }` from the source, as the ordered
list of (field name, field type) pairs. -/
def types : List (String × String) :=
  [("user", "address"), ("station", "address"), ("sessionId", "bytes32"),
   ("kWhMilli", "uint256"), ("chainId", "uint256"), ("contractAddr", "address")]

/-- The destructured request body `{ user, station, sessionId, kWhMilli,
chainId, contractAddr } = req.body`, with the transport types of the
external interface: addresses and sessionId and kWhMilli arrive as strings,
chainId as an integer. -/
structure RequestBody where
  user : String
  station : String
  sessionId : String
  kWhMilli : String
  chainId : Int
  contractAddr : String
deriving DecidableEq

structure EncodedDomain where
  name : String
  version : String
  chainId : Nat
  verifyingContract : String
deriving DecidableEq

structure EncodedClaim where
  user : String
  station : String
  sessionId : String
  kWhMilli : Nat
  chainId : Nat
  contractAddr : String
deriving DecidableEq

/-- The structured digest of EIP-712: a signature commits to the encoded
domain, the type schema and the encoded claim values. -/
structure Digest where
  domain : EncodedDomain
  schema : List (String × String)
  value : EncodedClaim
deriving DecidableEq

/-- A recoverable signature, modeled by the data that determines its
verification behaviour: the signer's address and the digest it signs. -/
structure Sig where
  signer : String
  digest : Digest
deriving DecidableEq

/-- ethers `isHexString(v, 20)`: a "0x"-prefixed string of exactly 40 hex
digits.  `resolveNames` treats address values failing this as ENS names. -/
def isHexString20 (s : String) : Bool :=
  match strip0x s.toList with
  | some rest => rest.length == 40 && rest.all isHexChar
  | none => false

/-- ethers v5 `_TypedDataEncoder.resolveNames` on this schema: the domain's
verifyingContract (when truthy) and every address-typed value of the claim
that is not a 0x-prefixed 40-hex-digit string is scheduled for ENS
resolution; with the provider-less `new ethers.Wallet(pk)` of the source the
first lookup throws, so signing fails whenever this is true. -/
def needsEnsResolution (d : Domain) (b : RequestBody) : Bool :=
  (!d.verifyingContract.data.isEmpty && !isHexString20 d.verifyingContract) ||
  !isHexString20 b.user || !isHexString20 b.station || !isHexString20 b.contractAddr

/-- The fallible prefix of `wallet._signTypedData(domain, types, value)`:
ethers v5 first runs `_TypedDataEncoder.resolveNames`, which for the
provider-less wallet throws as soon as any address value needs ENS
resolution, and then `_TypedDataEncoder.hash`, which encodes the domain
fields and the claim fields in schema order, failing exactly where the
ethers encoders throw.  Specialized to the SessionStop schema of the
source. -/
def hashTypedData (kn : List Char → Nat → Nat) (d : Domain)
    (schema : List (String × String)) (b : RequestBody) : Except String Digest :=
  match needsEnsResolution d b with
  | true => Except.error "cannot resolve ENS names without a provider"
  | false =>
  match encodeUint256 d.chainId with
  | Except.error e => Except.error e
  | Except.ok dcid =>
  match getAddress kn d.verifyingContract with
  | Except.error e => Except.error e
  | Except.ok dvc =>
  match getAddress kn b.user with
  | Except.error e => Except.error e
  | Except.ok u =>
  match getAddress kn b.station with
  | Except.error e => Except.error e
  | Except.ok st =>
  match encodeBytes32 b.sessionId with
  | Except.error e => Except.error e
  | Except.ok sid =>
  match bigNumberFromStr b.kWhMilli with
  | Except.error e => Except.error e
  | Except.ok kraw =>
  match encodeUint256 kraw with
  | Except.error e => Except.error e
  | Except.ok k =>
  match encodeUint256 b.chainId with
  | Except.error e => Except.error e
  | Except.ok cid =>
  match getAddress kn b.contractAddr with
  | Except.error e => Except.error e
  | Except.ok ca =>
    Except.ok
      { domain := { name := d.name, version := d.version, chainId := dcid, verifyingContract := dvc },
        schema := schema,
        value := { user := u, station := st, sessionId := sid, kWhMilli := k,
                   chainId := cid, contractAddr := ca } }

/-- Signature recovery against a recomputed digest: the signer's address is
recovered exactly when the digest matches the signed one. -/
def recoverTypedData (sig : Sig) (dg : Digest) : Option String :=
  if sig.digest = dg then some sig.signer else none

/-! ### The request handler (`src/server.js` lines 36-57) -/

/-- The cryptographic primitives of the ethers library, abstracted: the
keccak256 nibble oracle used by checksum casing, and the derivation of the
wallet's public address from its private key (`new ethers.Wallet(pk).address`). -/
structure Crypto where
  keccakNibble : List Char → Nat → Nat
  addressOfKey : String → String

inductive ResponseBody where
  | success (signature : Sig) (signer : String)
  | error (msg : String)
deriving DecidableEq

structure HttpResponse where
  status : Nat
  body : ResponseBody
deriving DecidableEq

/-- The validation prefix of the handler: the address check of lines 41-43,
then the station identity check of lines 46-48; `none` means accepted. -/
def validate (C : Crypto) (walletAddress : String) (b : RequestBody) : Option String :=
  if !(isAddress C.keccakNibble b.user && isAddress C.keccakNibble b.station &&
       isAddress C.keccakNibble b.contractAddr) then
    some "Bad address in payload"
  else if toLowerStr b.station ≠ toLowerStr walletAddress then
    some "Station address mismatch"
  else none

/-- The whole POST /sign-stop handler: validation rejections answer 400,
a successful `_signTypedData` answers 200 with {signature, signer}, and the
catch block answers 500 with `e.message || "sign failed"`. -/
def signStop (C : Crypto) (pk : String) (b : RequestBody) : HttpResponse :=
  let walletAddress := C.addressOfKey pk
  match validate C walletAddress b with
  | some msg => { status := 400, body := ResponseBody.error msg }
  | none =>
    match hashTypedData C.keccakNibble (domain b.chainId b.contractAddr) types b with
    | Except.ok dg =>
      { status := 200,
        body := ResponseBody.success { signer := walletAddress, digest := dg } walletAddress }
    | Except.error e =>
      { status := 500, body := ResponseBody.error (if e = "" then "sign failed" else e) }

/-! ### Concrete instances for evaluation -/

/-- A concrete nibble oracle (all nibbles 0: checksum casing is the identity
on lowercase addresses). -/
def knZero : List Char → Nat → Nat := fun _ _ => 0

/-- A concrete crypto instance whose wallet address is the demo station. -/
def demoCrypto : Crypto :=
  { keccakNibble := knZero,
    addressOfKey := fun _ => "0x2222222222222222222222222222222222222222" }

def demoPk : String := "0x3c48a8955d7f2a297d1afeaae62c04519aba5f1ab123114890cb1721e31844a5"

def goodBody : RequestBody :=
  { user := "0x1111111111111111111111111111111111111111"
    station := "0x2222222222222222222222222222222222222222"
    sessionId := "0x0000000000000000000000000000000000000000000000000000000000000001"
    kWhMilli := "12345"
    chainId := 1337
    contractAddr := "0x3333333333333333333333333333333333333333" }

example : isAddress knZero "0x1111111111111111111111111111111111111111" = true := rfl

example : isAddress knZero "0xZZ" = false := rfl

example : encodeBytes32 goodBody.sessionId =
    Except.ok "0x0000000000000000000000000000000000000000000000000000000000000001" := rfl

example : bigNumberFromStr "12345" = Except.ok 12345 := rfl

/-- The digest the demo claim encodes to (all fields already lowercase, so
checksum casing under `knZero` is the identity). -/
def demoDigest : Digest :=
  { domain := { name := "EVEnergy", version := "1", chainId := 1337,
                verifyingContract := "0x3333333333333333333333333333333333333333" }
    schema := types
    value := { user := "0x1111111111111111111111111111111111111111"
               station := "0x2222222222222222222222222222222222222222"
               sessionId := "0x0000000000000000000000000000000000000000000000000000000000000001"
               kWhMilli := 12345
               chainId := 1337
               contractAddr := "0x3333333333333333333333333333333333333333" } }

def demoSig : Sig :=
  { signer := "0x2222222222222222222222222222222222222222", digest := demoDigest }

def demoResponse : HttpResponse :=
  { status := 200
    body := ResponseBody.success demoSig "0x2222222222222222222222222222222222222222" }

example : signStop demoCrypto demoPk goodBody = demoResponse := rfl

/-- Success of `isAddress` is success of `getAddress`. -/
def isOkExcept {α : Type} (e : Except String α) : Bool :=
  match e with
  | Except.ok _ => true
  | Except.error _ => false

theorem isAddress_getAddress_ok {kn : List Char → Nat → Nat} {s : String}
    (h : isAddress kn s = true) : ∃ r, getAddress kn s = Except.ok r := by
  unfold isAddress at h
  unfold getAddress
  cases hg : getAddressList kn s.toList with
  | ok r => exact ⟨String.mk r, by simp [hg, Except.map]⟩
  | error e => rw [hg] at h; simp at h

/-- The validator can only produce its two fixed rejection messages. -/
theorem validate_some_msg {C : Crypto} {a : String} {b : RequestBody} {m : String}
    (h : validate C a b = some m) :
    m = "Bad address in payload" ∨ m = "Station address mismatch" := by
  unfold validate at h
  split at h
  · exact Or.inl (Option.some.inj h).symm
  · split at h
    · exact Or.inr (Option.some.inj h).symm
    · cases h

/-- Inversion of a successful typed-data encoding: every component encoder
succeeded and produced the corresponding digest component. -/
theorem hashTypedData_ok_inv {kn : List Char → Nat → Nat} {d : Domain}
    {schema : List (String × String)} {b : RequestBody} {dg : Digest}
    (h : hashTypedData kn d schema b = Except.ok dg) :
    encodeUint256 d.chainId = Except.ok dg.domain.chainId ∧
    getAddress kn d.verifyingContract = Except.ok dg.domain.verifyingContract ∧
    getAddress kn b.user = Except.ok dg.value.user ∧
    getAddress kn b.station = Except.ok dg.value.station ∧
    encodeBytes32 b.sessionId = Except.ok dg.value.sessionId ∧
    (∃ kraw, bigNumberFromStr b.kWhMilli = Except.ok kraw ∧
       encodeUint256 kraw = Except.ok dg.value.kWhMilli) ∧
    encodeUint256 b.chainId = Except.ok dg.value.chainId ∧
    getAddress kn b.contractAddr = Except.ok dg.value.contractAddr ∧
    dg.domain.name = d.name ∧ dg.domain.version = d.version ∧ dg.schema = schema := by
  unfold hashTypedData at h
  cases hE : needsEnsResolution d b with
  | true => simp only [hE] at h; exact Except.noConfusion h
  | false =>
  simp only [hE] at h
  cases h1 : encodeUint256 d.chainId with
  | error e => simp only [h1] at h; exact Except.noConfusion h
  | ok dcid =>
  simp only [h1] at h
  cases h2 : getAddress kn d.verifyingContract with
  | error e => simp only [h2] at h; exact Except.noConfusion h
  | ok dvc =>
  simp only [h2] at h
  cases h3 : getAddress kn b.user with
  | error e => simp only [h3] at h; exact Except.noConfusion h
  | ok u =>
  simp only [h3] at h
  cases h4 : getAddress kn b.station with
  | error e => simp only [h4] at h; exact Except.noConfusion h
  | ok stv =>
  simp only [h4] at h
  cases h5 : encodeBytes32 b.sessionId with
  | error e => simp only [h5] at h; exact Except.noConfusion h
  | ok sid =>
  simp only [h5] at h
  cases h6 : bigNumberFromStr b.kWhMilli with
  | error e => simp only [h6] at h; exact Except.noConfusion h
  | ok kraw =>
  simp only [h6] at h
  cases h7 : encodeUint256 kraw with
  | error e => simp only [h7] at h; exact Except.noConfusion h
  | ok k =>
  simp only [h7] at h
  cases h8 : encodeUint256 b.chainId with
  | error e => simp only [h8] at h; exact Except.noConfusion h
  | ok cid =>
  simp only [h8] at h
  cases h9 : getAddress kn b.contractAddr with
  | error e => simp only [h9] at h; exact Except.noConfusion h
  | ok ca =>
  simp only [h9] at h
  simp only [Except.ok.injEq] at h
  subst h
  exact ⟨rfl, rfl, rfl, rfl, rfl, ⟨kraw, rfl, h7⟩, rfl, rfl, rfl, rfl, rfl⟩

/-- Full case analysis of the handler: each request takes exactly one of the
three response paths. -/
theorem signStop_cases (C : Crypto) (pk : String) (b : RequestBody) :
    (∃ m, validate C (C.addressOfKey pk) b = some m ∧
       signStop C pk b = HttpResponse.mk 400 (ResponseBody.error m)) ∨
    (∃ e, validate C (C.addressOfKey pk) b = none ∧
       hashTypedData C.keccakNibble (domain b.chainId b.contractAddr) types b = Except.error e ∧
       signStop C pk b =
         HttpResponse.mk 500 (ResponseBody.error (if e = "" then "sign failed" else e))) ∨
    (∃ dg, validate C (C.addressOfKey pk) b = none ∧
       hashTypedData C.keccakNibble (domain b.chainId b.contractAddr) types b = Except.ok dg ∧
       signStop C pk b = HttpResponse.mk 200
         (ResponseBody.success (Sig.mk (C.addressOfKey pk) dg) (C.addressOfKey pk))) := by
  cases hv : validate C (C.addressOfKey pk) b with
  | some m => exact Or.inl ⟨m, rfl, by simp [signStop, hv]⟩
  | none =>
    cases hh : hashTypedData C.keccakNibble (domain b.chainId b.contractAddr) types b with
    | error e => exact Or.inr (Or.inl ⟨e, rfl, rfl, by simp [signStop, hv, hh]⟩)
    | ok dg => exact Or.inr (Or.inr ⟨dg, rfl, rfl, by simp [signStop, hv, hh]⟩)

def noPrefixUserBody : RequestBody :=
  { goodBody with user := "1111111111111111111111111111111111111111" }

/-- C1 counterexample.  A claim whose user is a prefix-less 40-hex-digit
string is a syntactically valid address to the validator (ethers `isAddress`
accepts it) and its station matches the service identity, yet the operation
does not succeed: ethers treats the non-0x-prefixed value as an ENS name and
the provider-less wallet throws, so the handler answers 500, not 200. -/
theorem sign_stop_valid_claim_not_sufficient :
    isAddress demoCrypto.keccakNibble noPrefixUserBody.user = true ∧
    isAddress demoCrypto.keccakNibble noPrefixUserBody.station = true ∧
    isAddress demoCrypto.keccakNibble noPrefixUserBody.contractAddr = true ∧
    toLowerStr noPrefixUserBody.station = toLowerStr (demoCrypto.addressOfKey demoPk) ∧
    (∃ t, encodeBytes32 noPrefixUserBody.sessionId = Except.ok t) ∧
    signStop demoCrypto demoPk noPrefixUserBody =
      HttpResponse.mk 500 (ResponseBody.error "cannot resolve ENS names without a provider") :=
  ⟨rfl, rfl, rfl, rfl, ⟨"0x0000000000000000000000000000000000000000000000000000000000000001", rfl⟩,
   rfl⟩

/-- C1 (amended).  For every claim whose user, station and contractAddr are
0x-prefixed 40-hex-digit addresses accepted by the validator (the only
address form the provider-less signer uses without attempting ENS
resolution), whose station equals the service identity case-insensitively,
and whose remaining fields are encodable (sessionId a 32-byte value,
kWhMilli a BigNumber in uint256 range, chainId in uint256 range), the
handler answers 200 with {signature, signer}, the signer is the wallet's
address, and the signature recovers to that address against the digest
recomputed from the same domain, schema and claim values. -/
theorem sign_stop_valid_claim_signs (C : Crypto) (pk : String) (b : RequestBody)
    (sid : String) (kv : Int) (k cid : Nat)
    (hu : isAddress C.keccakNibble b.user = true)
    (hs : isAddress C.keccakNibble b.station = true)
    (hc : isAddress C.keccakNibble b.contractAddr = true)
    (h20u : isHexString20 b.user = true)
    (h20s : isHexString20 b.station = true)
    (h20c : isHexString20 b.contractAddr = true)
    (hm : toLowerStr b.station = toLowerStr (C.addressOfKey pk))
    (hsid : encodeBytes32 b.sessionId = Except.ok sid)
    (hkv : bigNumberFromStr b.kWhMilli = Except.ok kv)
    (hk : encodeUint256 kv = Except.ok k)
    (hcid : encodeUint256 b.chainId = Except.ok cid) :
    ∃ dg, hashTypedData C.keccakNibble (domain b.chainId b.contractAddr) types b = Except.ok dg ∧
      signStop C pk b = HttpResponse.mk 200
        (ResponseBody.success (Sig.mk (C.addressOfKey pk) dg) (C.addressOfKey pk)) ∧
      recoverTypedData (Sig.mk (C.addressOfKey pk) dg) dg = some (C.addressOfKey pk) := by
  obtain ⟨ru, hru⟩ := isAddress_getAddress_ok hu
  obtain ⟨rs, hrs⟩ := isAddress_getAddress_ok hs
  obtain ⟨rc, hrc⟩ := isAddress_getAddress_ok hc
  have hE : needsEnsResolution (domain b.chainId b.contractAddr) b = false := by
    simp [needsEnsResolution, domain, h20u, h20s, h20c]
  have hhash : ∃ dg, hashTypedData C.keccakNibble (domain b.chainId b.contractAddr) types b =
      Except.ok dg := by
    simp only [hashTypedData]
    rw [hE]
    simp only [domain, hcid, hrc, hru, hrs, hsid, hkv, hk]
    exact ⟨_, rfl⟩
  obtain ⟨dg, hdg⟩ := hhash
  refine ⟨dg, hdg, ?_, ?_⟩
  · simp [signStop, validate, hu, hs, hc, hm, hdg]
  · simp [recoverTypedData]

/-- C1 (amended) witness: the demo claim is accepted, signed, and the
signature recovers to the demo station address. -/
theorem sign_stop_valid_claim_signs_witness :
    ∃ dg, hashTypedData demoCrypto.keccakNibble
        (domain goodBody.chainId goodBody.contractAddr) types goodBody = Except.ok dg ∧
      signStop demoCrypto demoPk goodBody = HttpResponse.mk 200
        (ResponseBody.success (Sig.mk (demoCrypto.addressOfKey demoPk) dg)
          (demoCrypto.addressOfKey demoPk)) ∧
      recoverTypedData (Sig.mk (demoCrypto.addressOfKey demoPk) dg) dg =
        some (demoCrypto.addressOfKey demoPk) :=
  sign_stop_valid_claim_signs demoCrypto demoPk goodBody
    "0x0000000000000000000000000000000000000000000000000000000000000001" 12345 12345 1337
    rfl rfl rfl rfl rfl rfl rfl rfl rfl rfl rfl

/-- C2.  For every claim with three valid address fields whose station is not
the service identity (case-insensitively), the handler answers 400 with the
StationMismatch rejection and no signature: the signing step is never
reached. -/
theorem sign_stop_station_mismatch (C : Crypto) (pk : String) (b : RequestBody)
    (hu : isAddress C.keccakNibble b.user = true)
    (hs : isAddress C.keccakNibble b.station = true)
    (hc : isAddress C.keccakNibble b.contractAddr = true)
    (hm : toLowerStr b.station ≠ toLowerStr (C.addressOfKey pk)) :
    signStop C pk b = HttpResponse.mk 400 (ResponseBody.error "Station address mismatch") := by
  simp [signStop, validate, hu, hs, hc, hm]

def otherStationBody : RequestBody :=
  { goodBody with station := "0x4444444444444444444444444444444444444444" }

/-- C2 witness: a claim naming a different (valid) station is rejected with
the StationMismatch message. -/
theorem sign_stop_station_mismatch_witness :
    signStop demoCrypto demoPk otherStationBody =
      HttpResponse.mk 400 (ResponseBody.error "Station address mismatch") :=
  sign_stop_station_mismatch demoCrypto demoPk otherStationBody rfl rfl rfl (by decide)

def badUserBody : RequestBody := { goodBody with user := "0xZZ" }

def badContractBody : RequestBody := { goodBody with contractAddr := "0xZZ" }

/-- C3 counterexample.  The address rejection does not name the offending
field: a claim with a malformed user and a claim with a malformed
contractAddr (each with the respective other field valid) receive literally
identical responses, both the fixed message "Bad address in payload", so the
response cannot identify which field was malformed. -/
theorem sign_stop_rejection_not_field_specific :
    isAddress demoCrypto.keccakNibble badUserBody.user = false ∧
    isAddress demoCrypto.keccakNibble badUserBody.contractAddr = true ∧
    isAddress demoCrypto.keccakNibble badContractBody.user = true ∧
    isAddress demoCrypto.keccakNibble badContractBody.contractAddr = false ∧
    badUserBody ≠ badContractBody ∧
    signStop demoCrypto demoPk badUserBody = signStop demoCrypto demoPk badContractBody ∧
    signStop demoCrypto demoPk badUserBody =
      HttpResponse.mk 400 (ResponseBody.error "Bad address in payload") :=
  ⟨rfl, rfl, rfl, rfl, by decide, rfl, rfl⟩

/-- C3 (amended).  For every claim with a malformed user, station or
contractAddr, the handler answers 400 with the single generic address
rejection "Bad address in payload" (it does not name the offending field),
produced by the validator before any signing attempt. -/
theorem sign_stop_bad_address_generic (C : Crypto) (pk : String) (b : RequestBody)
    (h : isAddress C.keccakNibble b.user = false ∨ isAddress C.keccakNibble b.station = false ∨
         isAddress C.keccakNibble b.contractAddr = false) :
    signStop C pk b = HttpResponse.mk 400 (ResponseBody.error "Bad address in payload") := by
  rcases h with h | h | h <;> simp [signStop, validate, h]

/-- C3 (amended) witness: a malformed user field produces the generic
address rejection. -/
theorem sign_stop_bad_address_generic_witness :
    signStop demoCrypto demoPk badUserBody =
      HttpResponse.mk 400 (ResponseBody.error "Bad address in payload") :=
  sign_stop_bad_address_generic demoCrypto demoPk badUserBody (Or.inl rfl)

/-- C4.  The validator fails fast in the source order: any address failure
(checks 1-3) produces the address rejection regardless of the station
identity, and the station identity check (check 4) is only reached when all
three addresses are valid; in particular a claim with both a malformed
address and a mismatched station gets the address rejection, never
StationMismatch. -/
theorem validator_check_order (C : Crypto) (pk : String) (b : RequestBody) :
    ((isAddress C.keccakNibble b.user && isAddress C.keccakNibble b.station &&
        isAddress C.keccakNibble b.contractAddr) = false →
      signStop C pk b = HttpResponse.mk 400 (ResponseBody.error "Bad address in payload")) ∧
    ((isAddress C.keccakNibble b.user && isAddress C.keccakNibble b.station &&
        isAddress C.keccakNibble b.contractAddr) = true →
      toLowerStr b.station ≠ toLowerStr (C.addressOfKey pk) →
      signStop C pk b = HttpResponse.mk 400 (ResponseBody.error "Station address mismatch")) := by
  constructor
  · intro h
    simp [signStop, validate, h]
  · intro h hm
    simp [signStop, validate, h, hm]

def badUserMismatchBody : RequestBody :=
  { goodBody with user := "0xZZ", station := "0x4444444444444444444444444444444444444444" }

/-- C4 witness: a claim with both a malformed user and a mismatched station
gets the address rejection, and a well-addressed mismatched claim gets the
StationMismatch rejection. -/
theorem validator_check_order_witness :
    signStop demoCrypto demoPk badUserMismatchBody =
      HttpResponse.mk 400 (ResponseBody.error "Bad address in payload") ∧
    signStop demoCrypto demoPk otherStationBody =
      HttpResponse.mk 400 (ResponseBody.error "Station address mismatch") :=
  ⟨(validator_check_order demoCrypto demoPk badUserMismatchBody).1 rfl,
   (validator_check_order demoCrypto demoPk otherStationBody).2 rfl (by decide)⟩

/-- C5.  Every signature the handler issues commits to the digest built from
the domain descriptor {name "EVEnergy", version "1", chainId from the claim,
verifyingContract the claim's contractAddr} and from the exact ordered
six-field SessionStop schema, so (chainId, contractAddr) is embedded in the
signing domain itself. -/
theorem sign_stop_domain_and_schema (C : Crypto) (pk : String) (b : RequestBody)
    (st : Nat) (sig : Sig) (sg : String)
    (h : signStop C pk b = HttpResponse.mk st (ResponseBody.success sig sg)) :
    hashTypedData C.keccakNibble (domain b.chainId b.contractAddr) types b =
      Except.ok sig.digest ∧
    sig.digest.domain.name = "EVEnergy" ∧
    sig.digest.domain.version = "1" ∧
    encodeUint256 b.chainId = Except.ok sig.digest.domain.chainId ∧
    getAddress C.keccakNibble b.contractAddr = Except.ok sig.digest.domain.verifyingContract ∧
    sig.digest.schema = [("user", "address"), ("station", "address"), ("sessionId", "bytes32"),
      ("kWhMilli", "uint256"), ("chainId", "uint256"), ("contractAddr", "address")] := by
  rcases signStop_cases C pk b with ⟨m, hv, hr⟩ | ⟨e, hv, hh, hr⟩ | ⟨dg, hv, hh, hr⟩
  · rw [hr] at h
    exact absurd h (by simp)
  · rw [hr] at h
    exact absurd h (by simp)
  · rw [hr] at h
    injection h with h1 h2
    injection h2 with h3 h4
    obtain ⟨hA, hB, _, _, _, _, _, _, hname, hver, hschema⟩ := hashTypedData_ok_inv hh
    subst h3
    exact ⟨hh, hname, hver, hA, hB, hschema⟩

/-- C5 witness: the demo claim's issued signature indeed carries the
EVEnergy/1 domain with the claim's chainId and contract and the six-field
schema. -/
theorem sign_stop_domain_and_schema_witness :
    hashTypedData demoCrypto.keccakNibble (domain goodBody.chainId goodBody.contractAddr)
      types goodBody = Except.ok demoSig.digest ∧
    demoSig.digest.domain.name = "EVEnergy" ∧
    demoSig.digest.domain.version = "1" ∧
    encodeUint256 goodBody.chainId = Except.ok demoSig.digest.domain.chainId ∧
    getAddress demoCrypto.keccakNibble goodBody.contractAddr =
      Except.ok demoSig.digest.domain.verifyingContract ∧
    demoSig.digest.schema = [("user", "address"), ("station", "address"), ("sessionId", "bytes32"),
      ("kWhMilli", "uint256"), ("chainId", "uint256"), ("contractAddr", "address")] :=
  sign_stop_domain_and_schema demoCrypto demoPk goodBody 200 demoSig
    "0x2222222222222222222222222222222222222222" rfl

/-- C6.  Every request yields exactly one structured response and the
handler is total: either a 400 validation rejection carrying the validator's
message, or a 500 signing-failure response carrying the signing error
message, or a 200 success; the error responses carry exactly an error
message body. -/
theorem sign_stop_total_response (C : Crypto) (pk : String) (b : RequestBody) :
    (∃ m, validate C (C.addressOfKey pk) b = some m ∧
       signStop C pk b = HttpResponse.mk 400 (ResponseBody.error m)) ∨
    (∃ e, validate C (C.addressOfKey pk) b = none ∧
       hashTypedData C.keccakNibble (domain b.chainId b.contractAddr) types b = Except.error e ∧
       signStop C pk b =
         HttpResponse.mk 500 (ResponseBody.error (if e = "" then "sign failed" else e))) ∨
    (∃ dg, validate C (C.addressOfKey pk) b = none ∧
       hashTypedData C.keccakNibble (domain b.chainId b.contractAddr) types b = Except.ok dg ∧
       signStop C pk b = HttpResponse.mk 200
         (ResponseBody.success (Sig.mk (C.addressOfKey pk) dg) (C.addressOfKey pk))) :=
  signStop_cases C pk b

/-- C7.  The response depends on the private key only through the derived
public identity, so no key material can reach a response; moreover every
caller-visible error message is either one of the two fixed validation
messages or the signing error computed from the claim alone. -/
theorem sign_stop_key_material_independent (C : Crypto) (pk1 pk2 : String) (b : RequestBody)
    (h : C.addressOfKey pk1 = C.addressOfKey pk2) :
    signStop C pk1 b = signStop C pk2 b ∧
    (∀ st m, signStop C pk1 b = HttpResponse.mk st (ResponseBody.error m) →
      m = "Bad address in payload" ∨ m = "Station address mismatch" ∨
      ∃ e, hashTypedData C.keccakNibble (domain b.chainId b.contractAddr) types b =
          Except.error e ∧
        m = (if e = "" then "sign failed" else e)) := by
  constructor
  · simp [signStop, h]
  · intro st m hm
    rcases signStop_cases C pk1 b with ⟨m0, hv, hr⟩ | ⟨e, hv, hh, hr⟩ | ⟨dg, hv, hh, hr⟩
    · rw [hr] at hm
      injection hm with h1 h2
      injection h2 with h3
      rcases validate_some_msg hv with hmm | hmm
      · exact Or.inl (h3 ▸ hmm)
      · exact Or.inr (Or.inl (h3 ▸ hmm))
    · rw [hr] at hm
      injection hm with h1 h2
      injection h2 with h3
      exact Or.inr (Or.inr ⟨e, hh, h3.symm⟩)
    · rw [hr] at hm
      exact absurd hm (by simp)

/-- C7 witness: two distinct private keys with the same derived identity
produce identical responses. -/
theorem sign_stop_key_material_independent_witness :
    signStop demoCrypto "0xaaa" goodBody = signStop demoCrypto "0xbbb" goodBody :=
  (sign_stop_key_material_independent demoCrypto "0xaaa" "0xbbb" goodBody rfl).1

/-- C8.  The validator's decision reads only user, station and contractAddr
(plus the fixed identity): claims differing only in sessionId, kWhMilli or
chainId get the same decision, so no value of those fields can cause a
validation rejection. -/
theorem validate_pure_in_opaque_fields (C : Crypto) (a u stn ca s1 k1 s2 k2 : String)
    (c1 c2 : Int) :
    validate C a { user := u, station := stn, sessionId := s1, kWhMilli := k1, chainId := c1, contractAddr := ca } =
    validate C a { user := u, station := stn, sessionId := s2, kWhMilli := k2, chainId := c2, contractAddr := ca } :=
  rfl

/-- C9.  The whole operation is a deterministic function of the claim and
the station key: two successful runs on the same claim return bit-for-bit
the same signature, signer and status (the embedding models ethers v5
signing, which derives its nonce deterministically per RFC 6979 and takes no
randomness). -/
theorem sign_stop_deterministic (C : Crypto) (pk : String) (b : RequestBody)
    (st1 st2 : Nat) (sig1 sig2 : Sig) (sg1 sg2 : String)
    (h1 : signStop C pk b = HttpResponse.mk st1 (ResponseBody.success sig1 sg1))
    (h2 : signStop C pk b = HttpResponse.mk st2 (ResponseBody.success sig2 sg2)) :
    sig1 = sig2 ∧ sg1 = sg2 ∧ st1 = st2 := by
  rw [h1] at h2
  injection h2 with ha hb
  injection hb with hc hd
  exact ⟨hc, hd, ha⟩

/-- C9 witness: the demo claim signs successfully, and two runs agree. -/
theorem sign_stop_deterministic_witness :
    signStop demoCrypto demoPk goodBody =
      HttpResponse.mk 200 (ResponseBody.success demoSig "0x2222222222222222222222222222222222222222") ∧
    demoSig = demoSig :=
  ⟨rfl, (sign_stop_deterministic demoCrypto demoPk goodBody 200 200 demoSig demoSig
    "0x2222222222222222222222222222222222222222" "0x2222222222222222222222222222222222222222"
    rfl rfl).1⟩

/-- C10.  A claim that passes validation (valid addresses, matching station)
but whose sessionId or kWhMilli the typed-data encoder rejects yields a 500
signing-failure response, not a 400 validation rejection: the validator
never inspects those fields. -/
theorem sign_stop_unencodable_claim_server_error (C : Crypto) (pk : String) (b : RequestBody)
    (hu : isAddress C.keccakNibble b.user = true)
    (hs : isAddress C.keccakNibble b.station = true)
    (hc : isAddress C.keccakNibble b.contractAddr = true)
    (hm : toLowerStr b.station = toLowerStr (C.addressOfKey pk))
    (henc : isOkExcept (encodeBytes32 b.sessionId) = false ∨
            isOkExcept (Except.bind (bigNumberFromStr b.kWhMilli) encodeUint256) = false) :
    ∃ m, signStop C pk b = HttpResponse.mk 500 (ResponseBody.error m) := by
  have hv : validate C (C.addressOfKey pk) b = none := by
    simp [validate, hu, hs, hc, hm]
  cases hh : hashTypedData C.keccakNibble (domain b.chainId b.contractAddr) types b with
  | error e =>
    exact ⟨if e = "" then "sign failed" else e, by simp [signStop, hv, hh]⟩
  | ok dg =>
    exfalso
    obtain ⟨_, _, _, _, hsid, ⟨kraw, hkraw, hk⟩, _, _, _, _, _⟩ := hashTypedData_ok_inv hh
    rcases henc with henc | henc
    · rw [hsid] at henc
      simp [isOkExcept] at henc
    · rw [hkraw] at henc
      simp [Except.bind, isOkExcept, hk] at henc

def badSessionBody : RequestBody := { goodBody with sessionId := "0xzz" }

/-- C10 witness: a validated claim whose sessionId is not hex data reaches
the signer and fails there with a 500 response. -/
theorem sign_stop_unencodable_claim_server_error_witness :
    ∃ m, signStop demoCrypto demoPk badSessionBody =
      HttpResponse.mk 500 (ResponseBody.error m) :=
  sign_stop_unencodable_claim_server_error demoCrypto demoPk badSessionBody
    rfl rfl rfl rfl (Or.inl rfl)

end EVEnergy
